import Mathlib

/-!
# platform-chatgpt-service: thread store, orchestrator, validator and handler

A shallow embedding of the Go sources

* `internal/models/models.go`   (request, response and thread records),
* `internal/openai/client.go`   (the in-memory thread cache and `RunThread`),
* `internal/openai/interface.go`, `internal/openai/mock_client.go`,
* `internal/handlers/chat_handler.go` (validation and the HTTP handler),
* `pkg/utils/utils.go` (`TruncateString`),

followed by theorems about them.

Modelling conventions.

* A Go `error` is represented by its message (the text of `Error()`); `nil` is
  `none` / `Except.ok`.  `fmt.Errorf("... %w", err)` yields the format text with the
  message of `err` substituted.
* `map[string]*models.ThreadInfo` is a finite map with unique keys
  (`AList`).  The map stores pointers; mutating a record through the pointer
  is a `replace` at its key, creating an entry is an `insert`, `delete` is an
  `erase`.
* Calls are executed one at a time (the mutex sections are atomic and there is
  no interleaving), so the lock operations themselves do not appear.
* Logging is an external side effect and is left out.
* `time.Now()` is an input: every operation that reads the clock receives its
  readings as arguments, in the order in which the source reads them.
* The upstream completion call `c.client.CreateChatCompletion(ctx, req)` is an
  external collaborator.  It is an argument of `RunThread`: a function from the
  request to either an error message or a response.  Cancellation and timeout
  of `ctx` show up as an error outcome of that function, so the context
  argument of the Go methods is not represented.
-/

namespace ChatGPTService

/-! ## Time -/

/-- A `time.Duration`: a signed count of nanoseconds. -/
abbrev Duration := Int

/-- Largest `time.Duration` (`math.MaxInt64`). -/
def maxDuration : Duration := 2 ^ 63 - 1

/-- Smallest `time.Duration` (`math.MinInt64`). -/
def minDuration : Duration := -(2 ^ 63)

/-- A `time.Time` instant, as nanoseconds on the time line. -/
structure Time where
  nanos : Int
  deriving DecidableEq, Repr

/-- Go `t.Sub(u)`: the duration `t - u`; when the difference does not fit a
`Duration` the largest (or smallest) duration is returned. -/
def Time.Sub (t u : Time) : Duration :=
  let d := t.nanos - u.nanos
  if d > maxDuration then maxDuration
  else if d < minDuration then minDuration
  else d

/-! ## Library records (`go-openai`) -/

/-- The fields of `openai.ChatCompletionMessage` the service sets. -/
structure ChatCompletionMessage where
  Role : String := ""
  Content : String := ""
  deriving DecidableEq, Repr

/-- The fields of `openai.ChatCompletionRequest` the service sets. -/
structure ChatCompletionRequest where
  Model : String := ""
  Messages : List ChatCompletionMessage := []
  deriving DecidableEq, Repr

/-- One entry of `resp.Choices`. -/
structure ChatCompletionChoice where
  Message : ChatCompletionMessage := {}
  deriving DecidableEq, Repr

/-- The part of `openai.ChatCompletionResponse` the service reads. -/
structure ChatCompletionResponse where
  Choices : List ChatCompletionChoice := []
  deriving DecidableEq, Repr

/-- A Go `error`, represented by its message. -/
abbrev GoError := String

/-- The upstream collaborator: `CreateChatCompletion` as a function of the request. -/
abbrev Upstream := ChatCompletionRequest → Except GoError ChatCompletionResponse

/-! ## `internal/models/models.go` -/

/-- A `float64` field.  The service only stores constants and a measured
latency in such fields; they are kept as rationals.  For the latency
(`ResponseMeta.ProcessingTime`) this is the exact quotient of the elapsed
nanoseconds by `10^9`, where Go stores its rounding to a `float64`; no
statement below depends on that field. -/
abbrev Float64 := Rat

/-- Record `models.File`. -/
structure File where
  Filename : String := ""
  Content : String := ""
  LastModified : Time := ⟨0⟩
  deriving DecidableEq, Repr

/-- Record `models.ChatEntry`. -/
structure ChatEntry where
  Role : String := ""
  Content : String := ""
  Timestamp : Time := ⟨0⟩
  deriving DecidableEq, Repr

/-- Record `models.AgentConfig`. -/
structure AgentConfig where
  Name : String := ""
  Description : String := ""
  Instructions : String := ""
  Temperature : Float64 := 0
  MaxTokens : Int := 0
  AIProvider : String := ""
  deriving DecidableEq, Repr

/-- Record `models.Context`. -/
structure Context where
  Files : List File := []
  ChatHistory : List ChatEntry := []
  AgentConfig : AgentConfig := {}
  deriving DecidableEq, Repr

/-- Record `models.Metadata`. -/
structure Metadata where
  RequestID : String := ""
  Timestamp : Time := ⟨0⟩
  UserAgent : String := ""
  deriving DecidableEq, Repr

/-- Record `models.ChatRequest`. -/
structure ChatRequest where
  OrganizationID : String := ""
  AgentID : String := ""
  UserID : String := ""
  Message : String := ""
  SessionID : String := ""
  Context : Context := {}
  Metadata : Metadata := {}
  deriving DecidableEq, Repr

/-- Record `models.ResponseMeta`. -/
structure ResponseMeta where
  Model : String := ""
  TokensUsed : Int := 0
  ProcessingTime : Float64 := 0
  Provider : String := ""
  Cost : Float64 := 0
  RequestID : String := ""
  deriving DecidableEq, Repr

/-- Record `models.ErrorInfo`. -/
structure ErrorInfo where
  Code : String := ""
  Message : String := ""
  Details : String := ""
  deriving DecidableEq, Repr

/-- Record `models.ResponseContext`. -/
structure ResponseContext where
  ThreadID : String := ""
  AssistantID : String := ""
  NextActions : List String := []
  deriving DecidableEq, Repr

/-- Record `models.ChatResponse`; the two pointer fields are options. -/
structure ChatResponse where
  Response : String := ""
  SessionID : String := ""
  ConversationID : String := ""
  Status : String := ""
  Metadata : ResponseMeta := {}
  Error : Option ErrorInfo := none
  Context : Option ResponseContext := none
  deriving DecidableEq, Repr

/-- Record `models.ThreadInfo`. -/
structure ThreadInfo where
  ThreadID : String := ""
  SessionID : String := ""
  AgentID : String := ""
  UserID : String := ""
  Messages : List ChatCompletionMessage := []
  CreatedAt : Time := ⟨0⟩
  LastUsed : Time := ⟨0⟩
  deriving DecidableEq, Repr

/-! ## `internal/config/config.go` -/

/-- Record `config.Config`. -/
structure Config where
  OpenAIAPIKey : String := ""
  Port : String := ""
  ThreadTTL : Duration := 0
  DefaultModel : String := ""
  MaxRetries : Int := 0
  RetryDelay : Duration := 0
  RequestTimeout : Duration := 0
  deriving DecidableEq, Repr

/-! ## `internal/openai/client.go` -/

/-- The thread cache: `map[string]*models.ThreadInfo`. -/
abbrev ThreadCache := AList (fun _ : String => ThreadInfo)

/-- The mutable part of `openai.Client`: the thread cache. -/
structure Client where
  threadCache : ThreadCache
  deriving DecidableEq

/-- Constructor `NewClient`: a client with an empty cache. -/
def NewClient : Client := { threadCache := ∅ }

/-- Method `Client.GetOrCreateThread`.  `now₁` and `now₂` are the first and second
reading of `time.Now()`: the hit branch reads the clock once, the miss branch
twice (`CreatedAt`, then `LastUsed`). -/
def Client.GetOrCreateThread (c : Client) (now₁ now₂ : Time)
    (sessionID agentID userID : String) : Client × Except GoError ThreadInfo :=
  match c.threadCache.lookup sessionID with
  | some thread =>
    let thread := { thread with LastUsed := now₁ }
    ({ threadCache := c.threadCache.replace sessionID thread }, .ok thread)
  | none =>
    let threadInfo : ThreadInfo :=
      { ThreadID := sessionID
        SessionID := sessionID
        AgentID := agentID
        UserID := userID
        Messages := []
        CreatedAt := now₁
        LastUsed := now₂ }
    ({ threadCache := c.threadCache.insert sessionID threadInfo }, .ok threadInfo)

/-- Method `Client.AddMessageToThread`; the result is the new client and the returned error. -/
def Client.AddMessageToThread (c : Client) (threadID content : String) :
    Client × Option GoError :=
  match c.threadCache.lookup threadID with
  | none => (c, some ("thread " ++ threadID ++ " not found"))
  | some thread =>
    let thread :=
      { thread with Messages := thread.Messages ++ [{ Role := "user", Content := content }] }
    ({ threadCache := c.threadCache.replace threadID thread }, none)

/-- Method `Client.RunThread`, with the upstream call as the argument `CreateChatCompletion`. -/
def Client.RunThread (c : Client) (CreateChatCompletion : Upstream)
    (threadID model : String) : Client × Except GoError String :=
  match c.threadCache.lookup threadID with
  | none => (c, .error ("thread " ++ threadID ++ " not found"))
  | some thread =>
    let messages := thread.Messages
    let req : ChatCompletionRequest := { Model := model, Messages := messages }
    match CreateChatCompletion req with
    | .error err => (c, .error ("failed to create chat completion: " ++ err))
    | .ok resp =>
      match resp.Choices with
      | [] => (c, .error "no response choices returned")
      | choice :: _ =>
        let assistantResponse := choice.Message.Content
        match c.threadCache.lookup threadID with
        | some thread =>
          let thread :=
            { thread with
              Messages := thread.Messages ++
                [{ Role := "assistant", Content := assistantResponse }] }
          ({ threadCache := c.threadCache.replace threadID thread }, .ok assistantResponse)
        | none => (c, .ok assistantResponse)

/-- One iteration of the loop of `CleanupOldCacheEntries` at the entry
`(sessionID, thread)`. -/
def cleanupStep (now : Time) (threadTTL : Duration) (cache : ThreadCache)
    (entry : Sigma (fun _ : String => ThreadInfo)) : ThreadCache :=
  if Time.Sub now entry.2.LastUsed > threadTTL then cache.erase entry.1 else cache

/-- Method `Client.CleanupOldCacheEntries`: `now` is the reading of `time.Now()`; the
loop ranges over the entries of the cache and deletes from it. -/
def Client.CleanupOldCacheEntries (c : Client) (now : Time) (threadTTL : Duration) : Client :=
  { threadCache := c.threadCache.entries.foldl (cleanupStep now threadTTL) c.threadCache }

/-- A call of one of the four exported operations of `Client`, with the clock
readings and the upstream behaviour it meets. -/
inductive Op where
  | getOrCreateThread (now₁ now₂ : Time) (sessionID agentID userID : String)
  | addMessageToThread (threadID content : String)
  | runThread (CreateChatCompletion : Upstream) (threadID model : String)
  | cleanupOldCacheEntries (now : Time) (threadTTL : Duration)

/-- The client after one call. -/
def Client.step (c : Client) : Op → Client
  | .getOrCreateThread now₁ now₂ sessionID agentID userID =>
    (c.GetOrCreateThread now₁ now₂ sessionID agentID userID).1
  | .addMessageToThread threadID content => (c.AddMessageToThread threadID content).1
  | .runThread up threadID model => (c.RunThread up threadID model).1
  | .cleanupOldCacheEntries now threadTTL => c.CleanupOldCacheEntries now threadTTL

/-- The client reached from `NewClient` by a sequence of calls. -/
def Client.run (ops : List Op) : Client := ops.foldl Client.step NewClient

/-! ## `internal/openai/interface.go`, `internal/openai/mock_client.go` -/

/-- Interface `openai.ClientInterface`: an implementation with internal state `σ`.  Each
method receives the state and returns the new state with its results. -/
structure ClientInterface (σ : Type) where
  GetOrCreateThread : σ → String → String → String → σ × Except GoError ThreadInfo
  AddMessageToThread : σ → String → String → σ × Option GoError
  RunThread : σ → String → String → σ × Except GoError String
  CleanupOldCacheEntries : σ → Duration → σ

/-- Record `openai.MockClient`: four replaceable functions. -/
structure MockClient (σ : Type) where
  GetOrCreateThreadFunc : σ → String → String → String → σ × Except GoError ThreadInfo
  AddMessageToThreadFunc : σ → String → String → σ × Option GoError
  RunThreadFunc : σ → String → String → σ × Except GoError String
  CleanupOldCacheEntriesFunc : σ → Duration → σ

/-- Constructor `NewMockClient`; `now₁`, `now₂` are the clock readings of its `GetOrCreateThreadFunc`. -/
def NewMockClient (now₁ now₂ : Time) : MockClient Unit :=
  { GetOrCreateThreadFunc := fun s sessionID agentID userID =>
      (s, .ok
        { ThreadID := "mock-thread-id"
          SessionID := sessionID
          AgentID := agentID
          UserID := userID
          Messages := []
          CreatedAt := now₁
          LastUsed := now₂ })
    AddMessageToThreadFunc := fun s _ _ => (s, none)
    RunThreadFunc := fun s _ _ => (s, .ok "This is a mock response from the OpenAI API.")
    CleanupOldCacheEntriesFunc := fun s _ => s }

/-- The methods of `MockClient` delegate to its function fields. -/
def MockClient.toInterface {σ : Type} (m : MockClient σ) : ClientInterface σ :=
  { GetOrCreateThread := m.GetOrCreateThreadFunc
    AddMessageToThread := m.AddMessageToThreadFunc
    RunThread := m.RunThreadFunc
    CleanupOldCacheEntries := m.CleanupOldCacheEntriesFunc }

/-- The real `Client` as a `ClientInterface`, for one request: the upstream
behaviour and the clock readings of that request are fixed. -/
def Client.toInterface (CreateChatCompletion : Upstream) (now₁ now₂ nowCleanup : Time) :
    ClientInterface Client :=
  { GetOrCreateThread := fun c sessionID agentID userID =>
      c.GetOrCreateThread now₁ now₂ sessionID agentID userID
    AddMessageToThread := fun c threadID content => c.AddMessageToThread threadID content
    RunThread := fun c threadID model => c.RunThread CreateChatCompletion threadID model
    CleanupOldCacheEntries := fun c threadTTL => c.CleanupOldCacheEntries nowCleanup threadTTL }

/-! ## `internal/handlers/chat_handler.go` -/

/-- Record `handlers.ChatHandler`. -/
structure ChatHandler (σ : Type) where
  openaiClient : ClientInterface σ
  cfg : Config

/-- Constructor `NewChatHandler`. -/
def NewChatHandler {σ : Type} (openaiClient : ClientInterface σ) (cfg : Config) :
    ChatHandler σ :=
  { openaiClient := openaiClient, cfg := cfg }

/-- Method `ChatHandler.validateRequest`: `none` is the `nil` error. -/
def ChatHandler.validateRequest {σ : Type} (_h : ChatHandler σ) (req : ChatRequest) :
    Option GoError :=
  if req.OrganizationID = "" then some "organizationId is required"
  else if req.AgentID = "" then some "agentId is required"
  else if req.UserID = "" then some "userId is required"
  else if req.Message = "" then some "message is required"
  else if req.SessionID = "" then some "sessionId is required"
  else if req.Context.AgentConfig.AIProvider ≠ "chatgpt" then
    some "aiProvider must be 'chatgpt'"
  else none

/-- Method `ChatHandler.processChat`: the client state after the calls, and the
response or the error. -/
def ChatHandler.processChat {σ : Type} (h : ChatHandler σ) (s : σ) (req : ChatRequest) :
    σ × Except GoError ChatResponse :=
  match h.openaiClient.GetOrCreateThread s req.SessionID req.AgentID req.UserID with
  | (s₁, .error err) => (s₁, .error ("failed to get or create thread: " ++ err))
  | (s₁, .ok thread) =>
    match h.openaiClient.AddMessageToThread s₁ thread.ThreadID req.Message with
    | (s₂, some err) => (s₂, .error ("failed to add message to thread: " ++ err))
    | (s₂, none) =>
      match h.openaiClient.RunThread s₂ thread.ThreadID h.cfg.DefaultModel with
      | (s₃, .error err) => (s₃, .error ("failed to run thread: " ++ err))
      | (s₃, .ok response) =>
        let chatResponse : ChatResponse :=
          { Response := response
            SessionID := req.SessionID
            ConversationID := thread.ThreadID
            Status := "success"
            Metadata :=
              { Model := h.cfg.DefaultModel
                TokensUsed := 0
                Provider := "chatgpt"
                Cost := 0 }
            Context := some
              { ThreadID := thread.ThreadID
                AssistantID := "" } }
        (s₃, .ok chatResponse)

/-- What `c.JSON(code, body)` writes. -/
structure HTTPResponse where
  code : Nat
  body : ChatResponse
  deriving DecidableEq, Repr

/-- Method `ChatHandler.HandleChat`.  `bind` is the outcome of `c.ShouldBindJSON(&req)`
(the parse error or the parsed request), `startTime` the clock reading on entry
and `endTime` the reading of `time.Since` on the success path. -/
def ChatHandler.HandleChat {σ : Type} (h : ChatHandler σ) (s : σ) (startTime endTime : Time)
    (bind : Except GoError ChatRequest) : σ × HTTPResponse :=
  match bind with
  | .error err =>
    (s, { code := 400
          body :=
            { Status := "error"
              Error := some
                { Code := "invalid_request"
                  Message := "Invalid request format"
                  Details := err } } })
  | .ok req =>
    match h.validateRequest req with
    | some err =>
      (s, { code := 400
            body :=
              { Status := "error"
                Error := some
                  { Code := "validation_error"
                    Message := "Request validation failed"
                    Details := err } } })
    | none =>
      match h.processChat s req with
      | (s₁, .error err) =>
        (s₁, { code := 500
               body :=
                 { Status := "error"
                   SessionID := req.SessionID
                   Error := some
                     { Code := "processing_error"
                       Message := "Error processing chat request"
                       Details := err } } })
      | (s₁, .ok response) =>
        let processingTime : Float64 := (Time.Sub endTime startTime : Int) / 1000000000
        let response :=
          { response with
            Metadata :=
              { response.Metadata with
                ProcessingTime := processingTime
                RequestID := req.Metadata.RequestID } }
        (s₁, { code := 200, body := response })

/-- The invariant of the cache: the record stored under key `k` carries `k` as
its thread id and as its session id. -/
def Client.KeysMatch (c : Client) : Prop :=
  ∀ k th, c.threadCache.lookup k = some th → th.ThreadID = k ∧ th.SessionID = k

/-! ## `pkg/utils/utils.go` -/

/-- A Go string as the sequence of its bytes: `len` is the number of bytes and
slicing cuts between bytes. -/
abbrev GoString := List (Fin 256)

/-- The value of an `int` (64 bits, two's complement) after an arithmetic
operation whose exact result is `x`. -/
def wrapInt64 (x : Int) : Int := (x + 2 ^ 63) % 2 ^ 64 - 2 ^ 63

/-- The three bytes of the literal `"..."`. -/
def ellipsis : GoString := [46, 46, 46]

/-- Function `TruncateString`; `none` is the run-time panic of the slice
expression `s[:maxLen-3]` when its bound is negative or exceeds `len(s)`. -/
def TruncateString (s : GoString) (maxLen : Int) : Option GoString :=
  if (s.length : Int) ≤ maxLen then some s
  else
    let hi := wrapInt64 (maxLen - 3)
    if hi < 0 ∨ (s.length : Int) < hi then none
    else some (s.take hi.toNat ++ ellipsis)

/-! ## Auxiliary notions for the statements -/

/-- The messages of the conversation stored under `sessionID`; none when there is
no such conversation. -/
def Client.messagesOf (c : Client) (sessionID : String) : List ChatCompletionMessage :=
  match c.threadCache.lookup sessionID with
  | some thread => thread.Messages
  | none => []

/-! ## The validation order as the specification words it -/

/-- The six checks of the request validator in the order the specification
fixes (organization id, agent id, user id, message, session id, provider tag),
each paired with the message of the error reported when it fails. -/
def validationChecks : List ((ChatRequest → Bool) × GoError) :=
  [ (fun req => req.OrganizationID != "", "organizationId is required"),
    (fun req => req.AgentID != "", "agentId is required"),
    (fun req => req.UserID != "", "userId is required"),
    (fun req => req.Message != "", "message is required"),
    (fun req => req.SessionID != "", "sessionId is required"),
    (fun req => req.Context.AgentConfig.AIProvider == "chatgpt", "aiProvider must be 'chatgpt'") ]

/-- The message of the first check of `validationChecks` that fails on `req`, if any. -/
def firstFailedCheck (req : ChatRequest) : Option GoError :=
  (validationChecks.find? (fun chk => !chk.1 req)).map Prod.snd

/-! ## Sample data -/

/-- A conversation for session `s1` holding one user message. -/
def sampleThread : ThreadInfo :=
  { ThreadID := "s1"
    SessionID := "s1"
    AgentID := "agent123"
    UserID := "user123"
    Messages := [{ Role := "user", Content := "Hello" }]
    CreatedAt := ⟨100⟩
    LastUsed := ⟨100⟩ }

/-- A client whose cache holds `sampleThread` under `s1`. -/
def sampleClient : Client := { threadCache := (∅ : ThreadCache).insert "s1" sampleThread }

/-- An upstream that answers every request with the single choice `Hi there`. -/
def upstreamOk : Upstream :=
  fun _ => .ok { Choices := [{ Message := { Role := "assistant", Content := "Hi there" } }] }

/-- An upstream that fails every request with `API error`. -/
def upstreamFail : Upstream := fun _ => .error "API error"

/-- An upstream that answers every request with an empty choice list. -/
def upstreamEmpty : Upstream := fun _ => .ok { Choices := [] }

/-- The valid request of the handler tests. -/
def sampleRequest : ChatRequest :=
  { OrganizationID := "org123"
    AgentID := "agent123"
    UserID := "user123"
    Message := "Hello"
    SessionID := "session123"
    Context := { AgentConfig := { AIProvider := "chatgpt", Name := "Test Assistant" } }
    Metadata := { RequestID := "req123" } }

/-- The conversation the mock client returns for `sampleRequest` at clock readings 5 and 6. -/
def sampleMockThread : ThreadInfo :=
  { ThreadID := "mock-thread-id"
    SessionID := "session123"
    AgentID := "agent123"
    UserID := "user123"
    Messages := []
    CreatedAt := ⟨5⟩
    LastUsed := ⟨6⟩ }

/-- The request of `TestHandleChatValidationError`: only the message is set. -/
def sampleInvalidRequest : ChatRequest := { Message := "Hello" }

/-- The handler of `TestHandleChatSuccess`: the mock client with a replaced `RunThreadFunc`. -/
def sampleHandlerOk : ChatHandler Unit :=
  NewChatHandler
    (MockClient.toInterface
      { NewMockClient ⟨5⟩ ⟨6⟩ with
        RunThreadFunc := fun s _ _ => (s, .ok "This is a test response") })
    { RequestTimeout := 30000000000, DefaultModel := "gpt-4o" }

/-- The handler of `TestHandleChatError`: the mock client whose `RunThreadFunc` fails. -/
def sampleHandlerErr : ChatHandler Unit :=
  NewChatHandler
    (MockClient.toInterface
      { NewMockClient ⟨5⟩ ⟨6⟩ with
        RunThreadFunc := fun s _ _ => (s, .error "API error") })
    { RequestTimeout := 30000000000 }

/-- A client that counts the calls made to it: its state is the number of calls so far. -/
def countingClient : ClientInterface Nat :=
  { GetOrCreateThread := fun n sessionID agentID userID =>
      (n + 1, .ok { ThreadID := sessionID, SessionID := sessionID, AgentID := agentID,
                    UserID := userID })
    AddMessageToThread := fun n _ _ => (n + 1, none)
    RunThread := fun n _ _ => (n + 1, .ok "counted")
    CleanupOldCacheEntries := fun n _ => n + 1 }

/-- An instant `2^63` nanoseconds after the instant 100 at which `sampleThread` was last used. -/
def sampleLateNow : Time := ⟨9223372036854775908⟩

/-- The bytes of the string `hello`. -/
def helloBytes : GoString := [104, 101, 108, 108, 111]

/-- A handler over the real client with upstream `up`, clock readings 1, 2, 3 and
default model `gpt-4o`. -/
def sampleRealHandler (up : Upstream) : ChatHandler Client :=
  NewChatHandler (Client.toInterface up ⟨1⟩ ⟨2⟩ ⟨3⟩) { DefaultModel := "gpt-4o" }

/-! ## Lemmas on the thread cache -/

/-- Replacing at a present key makes the list lookup at that key return the new value. -/
theorem dlookup_kreplace_self (k : String) (v : ThreadInfo) :
    ∀ l : List (Sigma (fun _ : String => ThreadInfo)), k ∈ l.keys →
      List.dlookup k (List.kreplace k v l) = some v
  | [], h => by simp at h
  | ⟨k', v'⟩ :: l, h => by
    by_cases hk : k = k'
    · subst hk
      unfold List.kreplace
      rw [List.lookmap_cons_some (b := (⟨k, v⟩ : Sigma (fun _ : String => ThreadInfo))) _ l (by simp)]
      exact List.dlookup_cons_eq _ _ _
    · have hmem : k ∈ l.keys := by
        rw [List.keys_cons] at h
        rcases List.mem_cons.1 h with h' | h'
        · exact absurd h' hk
        · exact h'
      have ih := dlookup_kreplace_self k v l hmem
      unfold List.kreplace at ih ⊢
      rw [List.lookmap_cons_none _ l (by simp [hk])]
      rw [List.dlookup_cons_ne _ _ hk]
      exact ih

/-- Replacing at a key leaves the list lookup at another key as it was. -/
theorem dlookup_kreplace_ne {k k' : String} (v : ThreadInfo) (hne : k' ≠ k) :
    ∀ l : List (Sigma (fun _ : String => ThreadInfo)),
      List.dlookup k' (List.kreplace k v l) = List.dlookup k' l
  | [] => by simp [List.kreplace]
  | ⟨a, b⟩ :: l => by
    by_cases hk : k = a
    · subst hk
      unfold List.kreplace
      rw [List.lookmap_cons_some (b := (⟨k, v⟩ : Sigma (fun _ : String => ThreadInfo))) _ l (by simp)]
      rw [List.dlookup_cons_ne _ _ hne, List.dlookup_cons_ne _ _ hne]
    · have ih := dlookup_kreplace_ne v hne l
      unfold List.kreplace at ih ⊢
      rw [List.lookmap_cons_none _ l (by simp [hk])]
      by_cases ha : k' = a
      · subst ha
        rw [List.dlookup_cons_eq, List.dlookup_cons_eq]
      · rw [List.dlookup_cons_ne _ _ ha, List.dlookup_cons_ne _ _ ha]
        exact ih

/-- Mutating the record stored under a present key makes the lookup at that key
return the new record. -/
theorem lookup_replace_self {k : String} {old : ThreadInfo} (v : ThreadInfo) {m : ThreadCache}
    (h : m.lookup k = some old) : (m.replace k v).lookup k = some v := by
  have hk : k ∈ m.entries.keys := by
    have : (m.lookup k).isSome := by simp [h]
    exact AList.mem_keys.1 (AList.lookup_isSome.1 this)
  exact dlookup_kreplace_self k v m.entries hk

/-- Mutating the record stored under a key leaves the lookups at other keys as they were. -/
theorem lookup_replace_ne {k k' : String} (v : ThreadInfo) (m : ThreadCache) (hne : k' ≠ k) :
    (m.replace k v).lookup k' = m.lookup k' :=
  dlookup_kreplace_ne v hne m.entries

/-- The miss branch of `GetOrCreateThread`. -/
theorem GetOrCreateThread_miss (c : Client) (n₁ n₂ : Time) (s a u : String)
    (h : c.threadCache.lookup s = none) :
    c.GetOrCreateThread n₁ n₂ s a u =
      ({ threadCache := c.threadCache.insert s
          { ThreadID := s, SessionID := s, AgentID := a, UserID := u, Messages := [],
            CreatedAt := n₁, LastUsed := n₂ } },
        .ok { ThreadID := s, SessionID := s, AgentID := a, UserID := u, Messages := [],
              CreatedAt := n₁, LastUsed := n₂ }) := by
  simp only [Client.GetOrCreateThread, h]

/-- The hit branch of `GetOrCreateThread`. -/
theorem GetOrCreateThread_hit (c : Client) (n₁ n₂ : Time) (s a u : String) (thread : ThreadInfo)
    (h : c.threadCache.lookup s = some thread) :
    c.GetOrCreateThread n₁ n₂ s a u =
      ({ threadCache := c.threadCache.replace s { thread with LastUsed := n₁ } },
        .ok { thread with LastUsed := n₁ }) := by
  simp only [Client.GetOrCreateThread, h]

/-- The not-found branch of `AddMessageToThread`. -/
theorem AddMessageToThread_miss (c : Client) (t x : String)
    (h : c.threadCache.lookup t = none) :
    c.AddMessageToThread t x = (c, some ("thread " ++ t ++ " not found")) := by
  simp only [Client.AddMessageToThread, h]

/-- The append branch of `AddMessageToThread`. -/
theorem AddMessageToThread_hit (c : Client) (t x : String) (thread : ThreadInfo)
    (h : c.threadCache.lookup t = some thread) :
    c.AddMessageToThread t x =
      ({ threadCache := c.threadCache.replace t
          { thread with Messages := thread.Messages ++ [{ Role := "user", Content := x }] } },
        none) := by
  simp only [Client.AddMessageToThread, h]

/-! ## `RunThread` -/

/-- C1. When the conversation stored under `t` has messages `m`, and the upstream
call on the request `(model, m)` succeeds with a non-empty choice list whose
first choice has content `r`, then `RunThread` returns `r` without error, the
conversation under `t` afterwards is the previous record with messages
`m ++ [assistant r]` (so one message longer), the set of keys is unchanged and
every other conversation is as before. -/
theorem RunThread_success_appends_reply (c : Client) (up : Upstream) (t model : String)
    (thread : ThreadInfo) (resp : ChatCompletionResponse) (choice : ChatCompletionChoice)
    (rest : List ChatCompletionChoice)
    (hthread : c.threadCache.lookup t = some thread)
    (hup : up { Model := model, Messages := thread.Messages } = .ok resp)
    (hchoices : resp.Choices = choice :: rest) :
    (c.RunThread up t model).2 = .ok choice.Message.Content ∧
    (c.RunThread up t model).1.threadCache.lookup t =
      some { thread with
        Messages := thread.Messages ++
          [{ Role := "assistant", Content := choice.Message.Content }] } ∧
    (∀ th, (c.RunThread up t model).1.threadCache.lookup t = some th →
      th.Messages.length = thread.Messages.length + 1) ∧
    (c.RunThread up t model).1.threadCache.keys = c.threadCache.keys ∧
    (∀ k, k ≠ t →
      (c.RunThread up t model).1.threadCache.lookup k = c.threadCache.lookup k) := by
  have hrun : c.RunThread up t model =
      ({ threadCache := c.threadCache.replace t
          { thread with
            Messages := thread.Messages ++
              [{ Role := "assistant", Content := choice.Message.Content }] } },
        .ok choice.Message.Content) := by
    simp only [Client.RunThread, hthread, hup, hchoices]
  rw [hrun]
  refine ⟨rfl, lookup_replace_self _ hthread, ?_, AList.keys_replace _ _ _, ?_⟩
  · intro th hth
    rw [lookup_replace_self _ hthread] at hth
    cases hth
    simp
  · intro k hk
    exact lookup_replace_ne _ _ hk

/-- Instance of C1 on `sampleClient` with an upstream that answers `Hi there`. -/
theorem RunThread_success_appends_reply_witness :
    (sampleClient.RunThread upstreamOk "s1" "gpt-4o").2 = .ok "Hi there" ∧
    (sampleClient.RunThread upstreamOk "s1" "gpt-4o").1.threadCache.lookup "s1" =
      some { sampleThread with
        Messages := [{ Role := "user", Content := "Hello" },
          { Role := "assistant", Content := "Hi there" }] } :=
  have h := RunThread_success_appends_reply sampleClient upstreamOk "s1" "gpt-4o" sampleThread
    { Choices := [{ Message := { Role := "assistant", Content := "Hi there" } }] }
    { Message := { Role := "assistant", Content := "Hi there" } } []
    (by decide) rfl rfl
  ⟨h.1, h.2.1⟩

/-- C2. When `RunThread` returns an error, the client after the call is the
client before the call (no conversation gains, loses or changes a message), and
the error arose in one of three ways: no conversation under `t`, a failed
upstream call, or an upstream response with zero choices. -/
theorem RunThread_error_leaves_store (c : Client) (up : Upstream) (t model : String)
    (e : GoError) (herr : (c.RunThread up t model).2 = .error e) :
    (c.RunThread up t model).1 = c ∧
    ((c.threadCache.lookup t = none ∧ e = "thread " ++ t ++ " not found") ∨
     (∃ thread err, c.threadCache.lookup t = some thread ∧
        up { Model := model, Messages := thread.Messages } = .error err ∧
        e = "failed to create chat completion: " ++ err) ∨
     (∃ thread resp, c.threadCache.lookup t = some thread ∧
        up { Model := model, Messages := thread.Messages } = .ok resp ∧
        resp.Choices = [] ∧ e = "no response choices returned")) := by
  unfold Client.RunThread at herr ⊢
  cases hl : c.threadCache.lookup t with
  | none =>
    simp only [hl] at herr ⊢
    injection herr with herr
    exact ⟨trivial, Or.inl ⟨trivial, herr.symm⟩⟩
  | some thread =>
    simp only [hl] at herr ⊢
    cases hu : up { Model := model, Messages := thread.Messages } with
    | error err =>
      simp only [hu] at herr ⊢
      injection herr with herr
      exact ⟨trivial, Or.inr (Or.inl ⟨thread, err, rfl, hu, herr.symm⟩)⟩
    | ok resp =>
      simp only [hu] at herr ⊢
      cases hc : resp.Choices with
      | nil =>
        simp only [hc] at herr ⊢
        injection herr with herr
        exact ⟨trivial, Or.inr (Or.inr ⟨thread, resp, rfl, hu, hc, herr.symm⟩)⟩
      | cons choice rest =>
        simp only [hc] at herr
        cases herr

/-- Instance of C2 on `sampleClient` with a failing upstream. -/
theorem RunThread_error_leaves_store_witness :
    (sampleClient.RunThread upstreamFail "s1" "gpt-4o").1 = sampleClient :=
  (RunThread_error_leaves_store sampleClient upstreamFail "s1" "gpt-4o"
    "failed to create chat completion: API error" rfl).1

/-! ## `GetOrCreateThread` -/

/-- C3. For a session id `s` absent from the cache, `GetOrCreateThread s a u`
returns a new conversation (thread id and session id `s`, agent `a`, user `u`,
no messages), stores it under `s` as the one added entry, and leaves every other
lookup as it was.  A second `GetOrCreateThread s a' u'` on the resulting client
returns that conversation with the same thread id, session id, agent, user,
messages and creation time (only `LastUsed` is refreshed), keeps the set of keys
and leaves every other lookup as it was. -/
theorem GetOrCreateThread_creates_once (c : Client) (s a u a' u' : String)
    (n₁ n₂ n₃ n₄ : Time) (hfresh : c.threadCache.lookup s = none) :
    (c.GetOrCreateThread n₁ n₂ s a u).2 =
      .ok { ThreadID := s, SessionID := s, AgentID := a, UserID := u, Messages := [],
            CreatedAt := n₁, LastUsed := n₂ } ∧
    (c.GetOrCreateThread n₁ n₂ s a u).1.threadCache.entries =
      ⟨s, { ThreadID := s, SessionID := s, AgentID := a, UserID := u, Messages := [],
            CreatedAt := n₁, LastUsed := n₂ }⟩ :: c.threadCache.entries ∧
    (∀ k, k ≠ s →
      (c.GetOrCreateThread n₁ n₂ s a u).1.threadCache.lookup k = c.threadCache.lookup k) ∧
    ((c.GetOrCreateThread n₁ n₂ s a u).1.GetOrCreateThread n₃ n₄ s a' u').2 =
      .ok { ThreadID := s, SessionID := s, AgentID := a, UserID := u, Messages := [],
            CreatedAt := n₁, LastUsed := n₃ } ∧
    ((c.GetOrCreateThread n₁ n₂ s a u).1.GetOrCreateThread n₃ n₄ s a' u').1.threadCache.keys =
      (c.GetOrCreateThread n₁ n₂ s a u).1.threadCache.keys ∧
    ((c.GetOrCreateThread n₁ n₂ s a u).1.GetOrCreateThread n₃ n₄ s a' u').1.threadCache.lookup s =
      some { ThreadID := s, SessionID := s, AgentID := a, UserID := u, Messages := [],
             CreatedAt := n₁, LastUsed := n₃ } ∧
    (∀ k, k ≠ s →
      ((c.GetOrCreateThread n₁ n₂ s a u).1.GetOrCreateThread n₃ n₄ s a' u').1.threadCache.lookup k =
        (c.GetOrCreateThread n₁ n₂ s a u).1.threadCache.lookup k) := by
  have hnot : s ∉ c.threadCache := AList.lookup_eq_none.1 hfresh
  have h1 := GetOrCreateThread_miss c n₁ n₂ s a u hfresh
  have hl : (c.GetOrCreateThread n₁ n₂ s a u).1.threadCache.lookup s =
      some { ThreadID := s, SessionID := s, AgentID := a, UserID := u, Messages := [],
             CreatedAt := n₁, LastUsed := n₂ } := by
    rw [h1]; exact AList.lookup_insert _
  have h2 := GetOrCreateThread_hit (c.GetOrCreateThread n₁ n₂ s a u).1 n₃ n₄ s a' u' _ hl
  refine ⟨by rw [h1], ?_, ?_, by rw [h2], ?_, ?_, ?_⟩
  · rw [h1]; exact AList.insert_entries_of_neg hnot
  · intro k hk
    rw [h1]; exact AList.lookup_insert_ne hk
  · rw [h2]; exact AList.keys_replace _ _ _
  · rw [h2]; exact lookup_replace_self _ hl
  · intro k hk
    rw [h2]; exact lookup_replace_ne _ _ hk

/-- Instance of C3 on the empty client and session `s1`. -/
theorem GetOrCreateThread_creates_once_witness :
    (NewClient.GetOrCreateThread ⟨1⟩ ⟨2⟩ "s1" "agentA" "userA").1.threadCache.entries =
      [⟨"s1", { ThreadID := "s1", SessionID := "s1", AgentID := "agentA", UserID := "userA",
                Messages := [], CreatedAt := ⟨1⟩, LastUsed := ⟨2⟩ }⟩] ∧
    ((NewClient.GetOrCreateThread ⟨1⟩ ⟨2⟩ "s1" "agentA" "userA").1.GetOrCreateThread
        ⟨3⟩ ⟨4⟩ "s1" "agentB" "userB").2 =
      .ok { ThreadID := "s1", SessionID := "s1", AgentID := "agentA", UserID := "userA",
            Messages := [], CreatedAt := ⟨1⟩, LastUsed := ⟨3⟩ } :=
  have h := GetOrCreateThread_creates_once NewClient "s1" "agentA" "userA" "agentB" "userB"
    ⟨1⟩ ⟨2⟩ ⟨3⟩ ⟨4⟩ (by decide)
  ⟨h.2.1, h.2.2.2.1⟩

/-! ## `AddMessageToThread` -/

/-- C10. The call `AddMessageToThread t x` returns the not-found error exactly when
no conversation is stored under `t`; it returns no other error; and whenever it
returns an error the client is unchanged. -/
theorem AddMessageToThread_not_found_iff (c : Client) (t x : String) :
    ((c.AddMessageToThread t x).2 = some ("thread " ++ t ++ " not found") ↔
      c.threadCache.lookup t = none) ∧
    (∀ e, (c.AddMessageToThread t x).2 = some e → e = "thread " ++ t ++ " not found") ∧
    (∀ e, (c.AddMessageToThread t x).2 = some e → (c.AddMessageToThread t x).1 = c) := by
  unfold Client.AddMessageToThread
  cases hl : c.threadCache.lookup t with
  | none =>
    refine ⟨⟨fun _ => rfl, fun _ => rfl⟩, ?_, fun _ _ => rfl⟩
    intro e he
    injection he with he
    exact he.symm
  | some thread =>
    refine ⟨⟨fun h => ?_, fun h => ?_⟩, ?_, ?_⟩
    · cases h
    · cases h
    · intro e he; cases he
    · intro e he; cases he

/-! ## `CleanupOldCacheEntries` -/

/-- When the difference of two instants fits a `Duration`, `Sub` returns it exactly. -/
theorem Time.Sub_eq_of_fits (t u : Time) (hlo : minDuration ≤ t.nanos - u.nanos)
    (hhi : t.nanos - u.nanos ≤ maxDuration) : Time.Sub t u = t.nanos - u.nanos := by
  unfold Time.Sub
  simp only
  rw [if_neg (not_lt.2 hhi), if_neg (not_lt.2 hlo)]

/-- For every `ttl` below the largest duration, comparing `Sub` with `ttl` is
comparing the exact difference with `ttl`. -/
theorem Time.Sub_gt_iff (now t : Time) (ttl : Duration) (hlo : minDuration ≤ ttl)
    (hhi : ttl < maxDuration) : Time.Sub now t > ttl ↔ now.nanos - t.nanos > ttl := by
  unfold Time.Sub
  simp only
  split_ifs with h1 h2
  · constructor
    · intro _; exact lt_trans hhi h1
    · intro _; exact hhi
  · constructor
    · intro h; exact absurd (lt_of_le_of_lt hlo h) (lt_irrefl _)
    · intro h; exact absurd (lt_trans (lt_of_le_of_lt hlo h) h2) (lt_irrefl _)
  · exact Iff.rfl

/-- The cleanup loop removes a key that has an expired entry among those it ranges over. -/
theorem lookup_cleanup_fold_hit (now : Time) (ttl : Duration) (k : String) :
    ∀ (es : List (Sigma (fun _ : String => ThreadInfo))) (m : ThreadCache),
      (∃ e ∈ es, e.1 = k ∧ Time.Sub now e.2.LastUsed > ttl) →
      (es.foldl (cleanupStep now ttl) m).lookup k = none
  | [], _, h => by
    obtain ⟨e, he, _⟩ := h
    cases he
  | e :: es, m, h => by
    rw [List.foldl_cons]
    by_cases hrest : ∃ e' ∈ es, e'.1 = k ∧ Time.Sub now e'.2.LastUsed > ttl
    · exact lookup_cleanup_fold_hit now ttl k es _ hrest
    · obtain ⟨e', hmem, hk, hexp⟩ := h
      rcases List.mem_cons.1 hmem with rfl | hmem'
      · have hstep : cleanupStep now ttl m e' = m.erase e'.1 := by
          simp only [cleanupStep, hexp, if_true]
        rw [hstep]
        -- no later entry deletes or restores `k`: deletions only remove
        have hmono : ∀ (l : List (Sigma (fun _ : String => ThreadInfo))) (m' : ThreadCache),
            m'.lookup k = none → (l.foldl (cleanupStep now ttl) m').lookup k = none := by
          intro l
          induction l with
          | nil => intro m' h'; exact h'
          | cons x l ih =>
            intro m' h'
            rw [List.foldl_cons]
            apply ih
            unfold cleanupStep
            split_ifs
            · by_cases hx : k = x.1
              · rw [hx]; exact AList.lookup_erase _ _
              · rw [AList.lookup_erase_ne hx]; exact h'
            · exact h'
        apply hmono
        rw [← hk]
        exact AList.lookup_erase _ _
      · exact absurd ⟨e', hmem', hk, hexp⟩ hrest

/-- The cleanup loop leaves a key alone that has no expired entry among those it ranges over. -/
theorem lookup_cleanup_fold_miss (now : Time) (ttl : Duration) (k : String) :
    ∀ (es : List (Sigma (fun _ : String => ThreadInfo))) (m : ThreadCache),
      (¬ ∃ e ∈ es, e.1 = k ∧ Time.Sub now e.2.LastUsed > ttl) →
      (es.foldl (cleanupStep now ttl) m).lookup k = m.lookup k
  | [], _, _ => rfl
  | e :: es, m, h => by
    rw [List.foldl_cons]
    have hrest : ¬ ∃ e' ∈ es, e'.1 = k ∧ Time.Sub now e'.2.LastUsed > ttl := by
      rintro ⟨e', hmem, hk, hexp⟩
      exact h ⟨e', List.mem_cons_of_mem _ hmem, hk, hexp⟩
    rw [lookup_cleanup_fold_miss now ttl k es _ hrest]
    unfold cleanupStep
    split_ifs with hexp
    · have hne : k ≠ e.1 := by
        intro hk
        exact h ⟨e, List.mem_cons_self _ _, hk.symm, hexp⟩
      exact AList.lookup_erase_ne hne
    · rfl

/-- The lookup after `CleanupOldCacheEntries ttl` at clock reading `now`, in terms
of the duration `now.Sub(lastUsed)` the loop computes: the conversation stored
under `k` before, unchanged, when that duration is not greater than `ttl`;
nothing when it is greater; and nothing when nothing was stored under `k`. -/
theorem CleanupOldCacheEntries_lookup_by_Sub (c : Client) (now : Time) (ttl : Duration)
    (k : String) :
    (c.CleanupOldCacheEntries now ttl).threadCache.lookup k =
      match c.threadCache.lookup k with
      | some thread => if Time.Sub now thread.LastUsed > ttl then none else some thread
      | none => none := by
  unfold Client.CleanupOldCacheEntries
  simp only
  cases hl : c.threadCache.lookup k with
  | none =>
    simp only
    rw [lookup_cleanup_fold_miss now ttl k _ _ ?_, hl]
    rintro ⟨e, hmem, hk, _⟩
    have hin : k ∈ c.threadCache.entries.keys := by
      rw [← hk]; exact List.mem_keys_of_mem hmem
    exact (AList.lookup_eq_none.1 hl) (AList.mem_keys.2 hin)
  | some thread =>
    simp only
    have hentry : (⟨k, thread⟩ : Sigma (fun _ : String => ThreadInfo)) ∈ c.threadCache.entries :=
      AList.mem_lookup_iff.1 (by rw [hl]; exact rfl)
    split_ifs with hexp
    · exact lookup_cleanup_fold_hit now ttl k _ _ ⟨⟨k, thread⟩, hentry, rfl, hexp⟩
    · rw [lookup_cleanup_fold_miss now ttl k _ _ ?_, hl]
      rintro ⟨⟨k', th'⟩, hmem, hk, hexp'⟩
      simp only at hk hexp'
      subst hk
      have hth : th' ∈ c.threadCache.lookup k' := AList.mem_lookup_iff.2 hmem
      rw [hl] at hth
      have : th' = thread := by
        cases hth; rfl
      rw [this] at hexp'
      exact hexp hexp'

/-- C5, as stated, fails.  `sampleClient` holds under `s1` a conversation last
used at instant 100.  At the instant `sampleLateNow` its idle time
`now - lastUsed` is `2^63` nanoseconds, greater than `ttl = maxDuration`, yet
`CleanupOldCacheEntries maxDuration` keeps it: `now.Sub(lastUsed)` saturates at
`maxDuration`, which is not greater than `ttl`. -/
theorem CleanupOldCacheEntries_largest_ttl_counterexample :
    sampleLateNow.nanos - sampleThread.LastUsed.nanos > maxDuration ∧
    sampleClient.threadCache.lookup "s1" = some sampleThread ∧
    (sampleClient.CleanupOldCacheEntries sampleLateNow maxDuration).threadCache.lookup "s1" =
      some sampleThread := by
  decide

/-- C5, amended.  For every cache, every clock reading `now` and every duration
`ttl` other than the largest one (`minDuration ≤ ttl < maxDuration`), after
`CleanupOldCacheEntries ttl` the lookup at every key `k` is: the conversation
stored under `k` before, unchanged, when its idle time `now - lastUsed` (the
exact difference of the two instants) is not greater than `ttl`; nothing when
`now - lastUsed > ttl`; and nothing when nothing was stored under `k`. -/
theorem CleanupOldCacheEntries_keeps_exactly_idle_within_ttl (c : Client) (now : Time)
    (ttl : Duration) (k : String) (hlo : minDuration ≤ ttl) (hhi : ttl < maxDuration) :
    (c.CleanupOldCacheEntries now ttl).threadCache.lookup k =
      match c.threadCache.lookup k with
      | some thread => if now.nanos - thread.LastUsed.nanos > ttl then none else some thread
      | none => none := by
  rw [CleanupOldCacheEntries_lookup_by_Sub c now ttl k]
  cases c.threadCache.lookup k with
  | none => rfl
  | some thread =>
    simp only
    by_cases hexp : now.nanos - thread.LastUsed.nanos > ttl
    · rw [if_pos hexp, if_pos ((Time.Sub_gt_iff now thread.LastUsed ttl hlo hhi).2 hexp)]
    · rw [if_neg hexp, if_neg (fun h => hexp ((Time.Sub_gt_iff now thread.LastUsed ttl hlo hhi).1 h))]

/-- Instance of amended C5: at instant 601 with `ttl = 400` the conversation of
`sampleClient`, idle for 501 nanoseconds, is removed. -/
theorem CleanupOldCacheEntries_keeps_exactly_idle_within_ttl_witness :
    (sampleClient.CleanupOldCacheEntries ⟨601⟩ 400).threadCache.lookup "s1" = none :=
  (CleanupOldCacheEntries_keeps_exactly_idle_within_ttl sampleClient ⟨601⟩ 400 "s1"
    (by decide) (by decide)).trans (by decide)

/-! ## The key invariant of the thread cache -/

/-- A lookup after a mutation at a present key is the new record at that key, or the old lookup elsewhere. -/
theorem lookup_replace_cases {k k' : String} {old th : ThreadInfo} (v : ThreadInfo)
    {m : ThreadCache} (hold : m.lookup k = some old)
    (h : (m.replace k v).lookup k' = some th) :
    (k' = k ∧ th = v) ∨ (k' ≠ k ∧ m.lookup k' = some th) := by
  by_cases hk : k' = k
  · subst hk
    rw [lookup_replace_self v hold] at h
    injection h with h
    exact Or.inl ⟨rfl, h.symm⟩
  · rw [lookup_replace_ne v m hk] at h
    exact Or.inr ⟨hk, h⟩

/-- The key invariant is preserved by `GetOrCreateThread`. -/
theorem KeysMatch_GetOrCreateThread (c : Client) (n₁ n₂ : Time) (s a u : String)
    (h : c.KeysMatch) : (c.GetOrCreateThread n₁ n₂ s a u).1.KeysMatch := by
  intro k th hk
  cases hl : c.threadCache.lookup s with
  | none =>
    rw [GetOrCreateThread_miss c n₁ n₂ s a u hl] at hk
    by_cases hks : k = s
    · subst hks
      simp only at hk
      rw [AList.lookup_insert] at hk
      injection hk with hk
      subst hk
      exact ⟨rfl, rfl⟩
    · simp only at hk
      rw [AList.lookup_insert_ne hks] at hk
      exact h k th hk
  | some thread =>
    rw [GetOrCreateThread_hit c n₁ n₂ s a u thread hl] at hk
    rcases lookup_replace_cases _ hl hk with ⟨rfl, rfl⟩ | ⟨_, hk'⟩
    · exact h _ thread hl
    · exact h k th hk'

/-- The key invariant is preserved by `AddMessageToThread`. -/
theorem KeysMatch_AddMessageToThread (c : Client) (t x : String) (h : c.KeysMatch) :
    (c.AddMessageToThread t x).1.KeysMatch := by
  intro k th hk
  cases hl : c.threadCache.lookup t with
  | none =>
    rw [AddMessageToThread_miss c t x hl] at hk
    exact h k th hk
  | some thread =>
    rw [AddMessageToThread_hit c t x thread hl] at hk
    rcases lookup_replace_cases _ hl hk with ⟨rfl, rfl⟩ | ⟨_, hk'⟩
    · exact h _ thread hl
    · exact h k th hk'

/-- The key invariant is preserved by `RunThread`. -/
theorem KeysMatch_RunThread (c : Client) (up : Upstream) (t model : String)
    (h : c.KeysMatch) : (c.RunThread up t model).1.KeysMatch := by
  intro k th hk
  unfold Client.RunThread at hk
  cases hl : c.threadCache.lookup t with
  | none =>
    simp only [hl] at hk
    exact h k th hk
  | some thread =>
    simp only [hl] at hk
    cases hu : up { Model := model, Messages := thread.Messages } with
    | error err =>
      simp only [hu] at hk
      exact h k th hk
    | ok resp =>
      simp only [hu] at hk
      cases hc : resp.Choices with
      | nil =>
        simp only [hc] at hk
        exact h k th hk
      | cons choice rest =>
        simp only [hc] at hk
        rcases lookup_replace_cases _ hl hk with ⟨rfl, rfl⟩ | ⟨_, hk'⟩
        · exact h _ thread hl
        · exact h k th hk'

/-- The cleanup loop only removes: what it leaves under a key was there before. -/
theorem lookup_cleanup_fold_some (now : Time) (ttl : Duration) (k : String) (th : ThreadInfo) :
    ∀ (es : List (Sigma (fun _ : String => ThreadInfo))) (m : ThreadCache),
      (es.foldl (cleanupStep now ttl) m).lookup k = some th → m.lookup k = some th
  | [], _, h => h
  | e :: es, m, h => by
    rw [List.foldl_cons] at h
    have hstep := lookup_cleanup_fold_some now ttl k th es _ h
    unfold cleanupStep at hstep
    split_ifs at hstep
    · by_cases hk : k = e.1
      · rw [hk, AList.lookup_erase] at hstep
        cases hstep
      · rw [AList.lookup_erase_ne hk] at hstep
        exact hstep
    · exact hstep

/-- The key invariant is preserved by `CleanupOldCacheEntries`. -/
theorem KeysMatch_CleanupOldCacheEntries (c : Client) (now : Time) (ttl : Duration)
    (h : c.KeysMatch) : (c.CleanupOldCacheEntries now ttl).KeysMatch := by
  intro k th hk
  exact h k th (lookup_cleanup_fold_some now ttl k th _ _ hk)

/-- The key invariant is preserved by every call. -/
theorem KeysMatch_step (c : Client) (op : Op) (h : c.KeysMatch) : (c.step op).KeysMatch := by
  cases op with
  | getOrCreateThread n₁ n₂ s a u => exact KeysMatch_GetOrCreateThread c n₁ n₂ s a u h
  | addMessageToThread t x => exact KeysMatch_AddMessageToThread c t x h
  | runThread up t model => exact KeysMatch_RunThread c up t model h
  | cleanupOldCacheEntries now ttl => exact KeysMatch_CleanupOldCacheEntries c now ttl h

/-- The key invariant is preserved by every sequence of calls. -/
theorem KeysMatch_foldl (ops : List Op) :
    ∀ c : Client, c.KeysMatch → (ops.foldl Client.step c).KeysMatch := by
  induction ops with
  | nil => intro c h; exact h
  | cons op ops ih =>
    intro c h
    rw [List.foldl_cons]
    exact ih _ (KeysMatch_step c op h)

/-- The key invariant holds of the empty client. -/
theorem KeysMatch_NewClient : NewClient.KeysMatch := by
  intro k th hk
  simp [NewClient] at hk

/-- C4. In every client reached from the empty client by any sequence of
`GetOrCreateThread`, `AddMessageToThread`, `RunThread` and
`CleanupOldCacheEntries` calls: a conversation stored under key `k` has
`ThreadID = k` and `SessionID = k`; two stored entries with the same session id
are the same entry; and looking up the thread id of a stored conversation finds
that conversation. -/
theorem reachable_thread_id_is_session_key (ops : List Op) :
    (∀ k th, (Client.run ops).threadCache.lookup k = some th →
      th.ThreadID = k ∧ th.SessionID = k) ∧
    (∀ e₁ ∈ (Client.run ops).threadCache.entries, ∀ e₂ ∈ (Client.run ops).threadCache.entries,
      e₁.2.SessionID = e₂.2.SessionID → e₁ = e₂) ∧
    (∀ e ∈ (Client.run ops).threadCache.entries,
      (Client.run ops).threadCache.lookup e.2.ThreadID = some e.2) := by
  have hinv : (Client.run ops).KeysMatch := KeysMatch_foldl ops NewClient KeysMatch_NewClient
  have hentry : ∀ e ∈ (Client.run ops).threadCache.entries,
      (Client.run ops).threadCache.lookup e.1 = some e.2 := by
    intro e he
    have : e.2 ∈ (Client.run ops).threadCache.lookup e.1 := AList.mem_lookup_iff.2 he
    exact this
  refine ⟨hinv, ?_, ?_⟩
  · intro e₁ h₁ e₂ h₂ hs
    have k₁ := (hinv _ _ (hentry e₁ h₁)).2
    have k₂ := (hinv _ _ (hentry e₂ h₂)).2
    have hkey : e₁.1 = e₂.1 := by rw [← k₁, ← k₂, hs]
    have l₁ := hentry e₁ h₁
    have l₂ := hentry e₂ h₂
    rw [hkey, l₂] at l₁
    injection l₁ with l₁
    exact Sigma.ext hkey (heq_of_eq l₁.symm)
  · intro e he
    rw [(hinv _ _ (hentry e he)).1]
    exact hentry e he

/-! ## `validateRequest` -/

/-- C6. The validator returns the message of the first check that fails, in the
fixed order organization id, agent id, user id, message, session id, provider
tag (so one error only, that of the earliest failing check), and it returns no
error exactly when all six checks pass. -/
theorem validateRequest_first_failed_check {σ : Type} (h : ChatHandler σ) (req : ChatRequest) :
    h.validateRequest req = firstFailedCheck req ∧
    (h.validateRequest req = none ↔
      (req.OrganizationID ≠ "" ∧ req.AgentID ≠ "" ∧ req.UserID ≠ "" ∧ req.Message ≠ "" ∧
        req.SessionID ≠ "" ∧ req.Context.AgentConfig.AIProvider = "chatgpt")) := by
  unfold ChatHandler.validateRequest firstFailedCheck validationChecks
  constructor
  · split_ifs <;> simp [List.find?_cons, *]
  · split_ifs <;> simp_all

/-! ## `HandleChat` -/

/-- A request with an empty required field or a foreign provider tag is rejected. -/
theorem validateRequest_rejects {σ : Type} (h : ChatHandler σ) (req : ChatRequest)
    (hbad : req.OrganizationID = "" ∨ req.AgentID = "" ∨ req.UserID = "" ∨ req.Message = "" ∨
      req.SessionID = "" ∨ req.Context.AgentConfig.AIProvider ≠ "chatgpt") :
    ∃ e, h.validateRequest req = some e := by
  unfold ChatHandler.validateRequest
  split_ifs with h1 h2 h3 h4 h5 h6
  · exact ⟨_, rfl⟩
  · exact ⟨_, rfl⟩
  · exact ⟨_, rfl⟩
  · exact ⟨_, rfl⟩
  · exact ⟨_, rfl⟩
  · exact ⟨_, rfl⟩
  · exfalso
    rcases hbad with hb | hb | hb | hb | hb | hb
    · exact h1 hb
    · exact h2 hb
    · exact h3 hb
    · exact h4 hb
    · exact h5 hb
    · exact h6 hb

/-- C7. For a parsed request with an empty organization id, agent id, user id,
message or session id, or with a provider tag other than `chatgpt`, `HandleChat`
answers 400 with status `error`, error code `validation_error` and details equal
to the validator's message, and the client state is the one it started from,
whatever the client implementation is: no client operation has run. -/
theorem HandleChat_validation_error {σ : Type} (h : ChatHandler σ) (s : σ)
    (startTime endTime : Time) (req : ChatRequest)
    (hbad : req.OrganizationID = "" ∨ req.AgentID = "" ∨ req.UserID = "" ∨ req.Message = "" ∨
      req.SessionID = "" ∨ req.Context.AgentConfig.AIProvider ≠ "chatgpt") :
    ∃ e, h.validateRequest req = some e ∧
      h.HandleChat s startTime endTime (.ok req) =
        (s, { code := 400
              body :=
                { Status := "error"
                  Error := some
                    { Code := "validation_error"
                      Message := "Request validation failed"
                      Details := e } } }) := by
  obtain ⟨e, hv⟩ := validateRequest_rejects h req hbad
  refine ⟨e, hv, ?_⟩
  simp only [ChatHandler.HandleChat, hv]

/-- Instance of C7 on the call-counting client: the counter stays at 0. -/
theorem HandleChat_validation_error_witness :
    ∃ e, (NewChatHandler countingClient {}).validateRequest sampleInvalidRequest = some e ∧
      (NewChatHandler countingClient {}).HandleChat 0 ⟨10⟩ ⟨20⟩ (.ok sampleInvalidRequest) =
        (0, { code := 400
              body :=
                { Status := "error"
                  Error := some
                    { Code := "validation_error"
                      Message := "Request validation failed"
                      Details := e } } }) :=
  HandleChat_validation_error (NewChatHandler countingClient {}) 0 ⟨10⟩ ⟨20⟩
    sampleInvalidRequest (Or.inl rfl)

/-- C8. For a request that passes validation, when `GetOrCreateThread` returns a
conversation `thread`, `AddMessageToThread` returns no error and `RunThread`
returns the text `r`, `HandleChat` answers 200 with status `success`, response
`r`, the request's session id, conversation id and context thread id both equal
to `thread.ThreadID`, metadata model equal to the configured default model,
provider `chatgpt`, the request's request id, tokens used 0, cost 0, and no
error object. -/
theorem HandleChat_success {σ : Type} (h : ChatHandler σ) (s s₁ s₂ s₃ : σ)
    (startTime endTime : Time) (req : ChatRequest) (thread : ThreadInfo) (r : String)
    (hvalid : h.validateRequest req = none)
    (hget : h.openaiClient.GetOrCreateThread s req.SessionID req.AgentID req.UserID =
      (s₁, .ok thread))
    (hadd : h.openaiClient.AddMessageToThread s₁ thread.ThreadID req.Message = (s₂, none))
    (hrun : h.openaiClient.RunThread s₂ thread.ThreadID h.cfg.DefaultModel = (s₃, .ok r)) :
    h.HandleChat s startTime endTime (.ok req) =
      (s₃, { code := 200
             body :=
               { Response := r
                 SessionID := req.SessionID
                 ConversationID := thread.ThreadID
                 Status := "success"
                 Metadata :=
                   { Model := h.cfg.DefaultModel
                     TokensUsed := 0
                     ProcessingTime := (Time.Sub endTime startTime : Int) / 1000000000
                     Provider := "chatgpt"
                     Cost := 0
                     RequestID := req.Metadata.RequestID }
                 Error := none
                 Context := some { ThreadID := thread.ThreadID, AssistantID := "" } } }) := by
  simp only [ChatHandler.HandleChat, ChatHandler.processChat, hvalid, hget, hadd, hrun]

/-- Instance of C8 on the handler of `TestHandleChatSuccess`. -/
theorem HandleChat_success_witness :
    ((sampleHandlerOk.HandleChat () ⟨10⟩ ⟨20⟩ (.ok sampleRequest)).2.code = 200 ∧
      (sampleHandlerOk.HandleChat () ⟨10⟩ ⟨20⟩ (.ok sampleRequest)).2.body.Response =
        "This is a test response") ∧
    (sampleHandlerOk.HandleChat () ⟨10⟩ ⟨20⟩ (.ok sampleRequest)).2.body.ConversationID =
      "mock-thread-id" :=
  have h := HandleChat_success sampleHandlerOk () () () () ⟨10⟩ ⟨20⟩ sampleRequest
    sampleMockThread "This is a test response" (by decide) rfl rfl rfl
  ⟨⟨congrArg (fun p => p.2.code) h, congrArg (fun p => p.2.body.Response) h⟩,
    congrArg (fun p => p.2.body.ConversationID) h⟩

/-- C9. For a request that passes validation, when one of the client operations
called by the handler (`GetOrCreateThread`, then `AddMessageToThread`, then
`RunThread`) returns an error with message `e`, `HandleChat` answers 500 with
status `error`, the request's session id, an empty response text, error code
`processing_error`, and details made of a fixed prefix naming the failed step
followed by `e`. -/
theorem HandleChat_processing_error {σ : Type} (h : ChatHandler σ) (s : σ)
    (startTime endTime : Time) (req : ChatRequest) (e : GoError)
    (hvalid : h.validateRequest req = none)
    (hfail :
      (∃ s₁, h.openaiClient.GetOrCreateThread s req.SessionID req.AgentID req.UserID =
        (s₁, .error e)) ∨
      (∃ s₁ thread s₂,
        h.openaiClient.GetOrCreateThread s req.SessionID req.AgentID req.UserID =
          (s₁, .ok thread) ∧
        h.openaiClient.AddMessageToThread s₁ thread.ThreadID req.Message = (s₂, some e)) ∨
      (∃ s₁ thread s₂ s₃,
        h.openaiClient.GetOrCreateThread s req.SessionID req.AgentID req.UserID =
          (s₁, .ok thread) ∧
        h.openaiClient.AddMessageToThread s₁ thread.ThreadID req.Message = (s₂, none) ∧
        h.openaiClient.RunThread s₂ thread.ThreadID h.cfg.DefaultModel = (s₃, .error e))) :
    ∃ pre,
      (pre = "failed to get or create thread: " ∨ pre = "failed to add message to thread: " ∨
        pre = "failed to run thread: ") ∧
      (h.HandleChat s startTime endTime (.ok req)).2 =
        { code := 500
          body :=
            { Response := ""
              SessionID := req.SessionID
              Status := "error"
              Error := some
                { Code := "processing_error"
                  Message := "Error processing chat request"
                  Details := pre ++ e } } } := by
  rcases hfail with ⟨s₁, hget⟩ | ⟨s₁, thread, s₂, hget, hadd⟩ | ⟨s₁, thread, s₂, s₃, hget, hadd, hrun⟩
  · refine ⟨_, Or.inl rfl, ?_⟩
    simp only [ChatHandler.HandleChat, ChatHandler.processChat, hvalid, hget]
  · refine ⟨_, Or.inr (Or.inl rfl), ?_⟩
    simp only [ChatHandler.HandleChat, ChatHandler.processChat, hvalid, hget, hadd]
  · refine ⟨_, Or.inr (Or.inr rfl), ?_⟩
    simp only [ChatHandler.HandleChat, ChatHandler.processChat, hvalid, hget, hadd, hrun]

/-- Instance of C9 on the handler of `TestHandleChatError`. -/
theorem HandleChat_processing_error_witness :
    ∃ pre,
      (pre = "failed to get or create thread: " ∨ pre = "failed to add message to thread: " ∨
        pre = "failed to run thread: ") ∧
      (sampleHandlerErr.HandleChat () ⟨10⟩ ⟨20⟩ (.ok sampleRequest)).2 =
        { code := 500
          body :=
            { Response := ""
              SessionID := "session123"
              Status := "error"
              Error := some
                { Code := "processing_error"
                  Message := "Error processing chat request"
                  Details := pre ++ "API error" } } } :=
  HandleChat_processing_error sampleHandlerErr () ⟨10⟩ ⟨20⟩ sampleRequest "API error"
    (by decide)
    (Or.inr (Or.inr ⟨(), sampleMockThread, (), (), rfl, rfl, rfl⟩))

/-! ## The effect of `AddMessageToThread` on a present conversation -/

/-- C11. When a conversation with messages `m` is stored under `t`,
`AddMessageToThread t x` returns no error and changes the cache only at `t`: the
record there becomes the previous record with messages `m ++ [user x]`, so the
earlier messages are an unchanged initial segment, exactly one message is added,
and thread id, session id, agent id, user id and creation time are the previous
ones; the set of keys and the lookup at every other key are unchanged. -/
theorem AddMessageToThread_appends_user_message (c : Client) (t x : String)
    (thread : ThreadInfo) (hthread : c.threadCache.lookup t = some thread) :
    (c.AddMessageToThread t x).2 = none ∧
    (c.AddMessageToThread t x).1.threadCache.lookup t =
      some { thread with
        Messages := thread.Messages ++ [{ Role := "user", Content := x }] } ∧
    (∀ th, (c.AddMessageToThread t x).1.threadCache.lookup t = some th →
      th.Messages = thread.Messages ++ [{ Role := "user", Content := x }] ∧
      thread.Messages <+: th.Messages ∧
      th.Messages.length = thread.Messages.length + 1 ∧
      th.ThreadID = thread.ThreadID ∧ th.SessionID = thread.SessionID ∧
      th.AgentID = thread.AgentID ∧ th.UserID = thread.UserID ∧
      th.CreatedAt = thread.CreatedAt) ∧
    (c.AddMessageToThread t x).1.threadCache.keys = c.threadCache.keys ∧
    (∀ k, k ≠ t →
      (c.AddMessageToThread t x).1.threadCache.lookup k = c.threadCache.lookup k) := by
  rw [AddMessageToThread_hit c t x thread hthread]
  refine ⟨rfl, lookup_replace_self _ hthread, ?_, AList.keys_replace _ _ _, ?_⟩
  · intro th hth
    rw [lookup_replace_self _ hthread] at hth
    injection hth with hth
    subst hth
    refine ⟨rfl, List.prefix_append _ _, ?_, rfl, rfl, rfl, rfl, rfl⟩
    simp
  · intro k hk
    exact lookup_replace_ne _ _ hk

/-- Instance of C11 on `sampleClient`: a second user message is appended after `Hello`. -/
theorem AddMessageToThread_appends_user_message_witness :
    (sampleClient.AddMessageToThread "s1" "again").2 = none ∧
    (sampleClient.AddMessageToThread "s1" "again").1.threadCache.lookup "s1" =
      some { sampleThread with
        Messages := [{ Role := "user", Content := "Hello" },
          { Role := "user", Content := "again" }] } :=
  have h := AddMessageToThread_appends_user_message sampleClient "s1" "again" sampleThread
    (by decide)
  ⟨h.1, h.2.1⟩

/-! ## Which operations refresh `LastUsed` -/

/-- C12, as stated, fails.  `sampleClient` holds a conversation last used at
instant 100.  Neither a user-message append nor a successful `RunThread` reads
the clock: after either call the conversation is still last used at 100, so its
`LastUsed` is not the time of a call made at a later instant such as 200. -/
theorem touch_sets_LastUsed_counterexample :
    (∃ th, (sampleClient.AddMessageToThread "s1" "again").1.threadCache.lookup "s1" = some th ∧
      th.LastUsed = ⟨100⟩ ∧ th.LastUsed ≠ (⟨200⟩ : Time)) ∧
    (∃ th, (sampleClient.RunThread upstreamOk "s1" "gpt-4o").2 = .ok "Hi there" ∧
      (sampleClient.RunThread upstreamOk "s1" "gpt-4o").1.threadCache.lookup "s1" = some th ∧
      th.LastUsed = ⟨100⟩ ∧ th.LastUsed ≠ (⟨200⟩ : Time)) := by
  refine ⟨⟨{ sampleThread with
      Messages := [{ Role := "user", Content := "Hello" },
        { Role := "user", Content := "again" }] }, by decide, rfl, by decide⟩,
    ⟨{ sampleThread with
      Messages := [{ Role := "user", Content := "Hello" },
        { Role := "assistant", Content := "Hi there" }] }, rfl, by decide, rfl, by decide⟩⟩

/-- C12, amended.  For a conversation `thread` stored under `t`:
`GetOrCreateThread` on `t` at clock reading `now` stores and returns `thread`
with `LastUsed` set to `now`; `AddMessageToThread` and a successful `RunThread`
leave `LastUsed` as it was. -/
theorem LastUsed_refreshed_by_lookup_only (c : Client) (t a u x model : String)
    (now now' : Time) (up : Upstream) (thread : ThreadInfo)
    (hthread : c.threadCache.lookup t = some thread) :
    ((c.GetOrCreateThread now now' t a u).2 = .ok { thread with LastUsed := now } ∧
      (c.GetOrCreateThread now now' t a u).1.threadCache.lookup t =
        some { thread with LastUsed := now }) ∧
    (∀ th, (c.AddMessageToThread t x).1.threadCache.lookup t = some th →
      th.LastUsed = thread.LastUsed) ∧
    (∀ th r, (c.RunThread up t model).2 = .ok r →
      (c.RunThread up t model).1.threadCache.lookup t = some th →
      th.LastUsed = thread.LastUsed) := by
  refine ⟨?_, ?_, ?_⟩
  · rw [GetOrCreateThread_hit c now now' t a u thread hthread]
    exact ⟨rfl, lookup_replace_self _ hthread⟩
  · intro th hth
    rw [AddMessageToThread_hit c t x thread hthread] at hth
    rw [lookup_replace_self _ hthread] at hth
    injection hth with hth
    subst hth
    rfl
  · intro th r hr hth
    unfold Client.RunThread at hr hth
    simp only [hthread] at hr hth
    cases hu : up { Model := model, Messages := thread.Messages } with
    | error err =>
      simp only [hu] at hr
      cases hr
    | ok resp =>
      simp only [hu] at hr hth
      cases hc : resp.Choices with
      | nil =>
        simp only [hc] at hr
        cases hr
      | cons choice rest =>
        simp only [hc] at hth
        rw [lookup_replace_self _ hthread] at hth
        injection hth with hth
        subst hth
        rfl

/-- Instance of amended C12 on `sampleClient`: a lookup at instant 200 sets `LastUsed` to 200. -/
theorem LastUsed_refreshed_by_lookup_only_witness :
    (sampleClient.GetOrCreateThread ⟨200⟩ ⟨201⟩ "s1" "agentB" "userB").2 =
      .ok { sampleThread with LastUsed := ⟨200⟩ } :=
  (LastUsed_refreshed_by_lookup_only sampleClient "s1" "agentB" "userB" "again" "gpt-4o"
    ⟨200⟩ ⟨201⟩ upstreamOk sampleThread (by decide)).1.1

/-! ## `processChat` over the real client -/

/-- On a client satisfying the key invariant, the first two steps of
`processChat` succeed: `GetOrCreateThread` returns a conversation whose thread
id is the session id and whose messages are the ones stored before, and
`AddMessageToThread` then stores that conversation with the user message
appended. -/
theorem real_get_then_add (c : Client) (hinv : c.KeysMatch) (n₁ n₂ : Time)
    (sid aid uid msg : String) :
    ∃ thread c₁ c₂,
      c.GetOrCreateThread n₁ n₂ sid aid uid = (c₁, .ok thread) ∧
      thread.ThreadID = sid ∧
      thread.Messages = c.messagesOf sid ∧
      c₁.AddMessageToThread sid msg = (c₂, none) ∧
      c₂.threadCache.lookup sid =
        some { thread with
          Messages := c.messagesOf sid ++ [{ Role := "user", Content := msg }] } := by
  cases hl : c.threadCache.lookup sid with
  | none =>
    have hmsgs : c.messagesOf sid = [] := by simp only [Client.messagesOf, hl]
    have hl₁ : (c.threadCache.insert sid
        { ThreadID := sid, SessionID := sid, AgentID := aid, UserID := uid, Messages := [],
          CreatedAt := n₁, LastUsed := n₂ }).lookup sid = some
        { ThreadID := sid, SessionID := sid, AgentID := aid, UserID := uid, Messages := [],
          CreatedAt := n₁, LastUsed := n₂ } := AList.lookup_insert _
    refine ⟨_, _, _, GetOrCreateThread_miss c n₁ n₂ sid aid uid hl, rfl, ?_,
      AddMessageToThread_hit _ sid msg _ hl₁, ?_⟩
    · rw [hmsgs]
    · rw [hmsgs]
      exact lookup_replace_self _ hl₁
  | some old =>
    have hmsgs : c.messagesOf sid = old.Messages := by simp only [Client.messagesOf, hl]
    have hl₁ : (c.threadCache.replace sid { old with LastUsed := n₁ }).lookup sid =
        some { old with LastUsed := n₁ } := lookup_replace_self _ hl
    refine ⟨_, _, _, GetOrCreateThread_hit c n₁ n₂ sid aid uid old hl, (hinv sid old hl).1, ?_,
      AddMessageToThread_hit _ sid msg _ hl₁, ?_⟩
    · rw [hmsgs]
    · rw [hmsgs]
      exact lookup_replace_self _ hl₁

/-- The outcome of `processChat` over the real client when `RunThread`, run on the
cache that holds the appended user message, returns the error `e`. -/
theorem real_processChat_run_error (c : Client) (hinv : c.KeysMatch) (up : Upstream)
    (n₁ n₂ n₃ : Time) (cfg : Config) (req : ChatRequest) (e : GoError)
    (hfail : (((c.GetOrCreateThread n₁ n₂ req.SessionID req.AgentID req.UserID).1.AddMessageToThread
      req.SessionID req.Message).1.RunThread up req.SessionID cfg.DefaultModel).2 = .error e) :
    (NewChatHandler (Client.toInterface up n₁ n₂ n₃) cfg).processChat c req =
      (((c.GetOrCreateThread n₁ n₂ req.SessionID req.AgentID req.UserID).1.AddMessageToThread
          req.SessionID req.Message).1,
        .error ("failed to run thread: " ++ e)) := by
  obtain ⟨thread, c₁, c₂, hget, hid, _, hadd, _⟩ :=
    real_get_then_add c hinv n₁ n₂ req.SessionID req.AgentID req.UserID req.Message
  rw [hget] at hfail ⊢
  simp only at hfail ⊢
  rw [hadd] at hfail ⊢
  simp only at hfail ⊢
  have hstate : (c₂.RunThread up req.SessionID cfg.DefaultModel).1 = c₂ := by
    unfold Client.RunThread at hfail ⊢
    cases hl : c₂.threadCache.lookup req.SessionID with
    | none => rfl
    | some th =>
      simp only [hl] at hfail ⊢
      cases hu : up { Model := cfg.DefaultModel, Messages := th.Messages } with
      | error err => rfl
      | ok resp =>
        simp only [hu] at hfail ⊢
        cases hc : resp.Choices with
        | nil => rfl
        | cons choice rest =>
          simp only [hc] at hfail
          cases hfail
  have hrun : c₂.RunThread up req.SessionID cfg.DefaultModel = (c₂, .error e) :=
    Prod.ext hstate hfail
  simp only [ChatHandler.processChat, NewChatHandler, Client.toInterface, hget, hid, hadd, hrun]

/-- When the upstream call on the stored messages fails with message `m`,
`RunThread` returns the client unchanged and `m` behind a fixed text. -/
theorem RunThread_upstream_error (c : Client) (up : Upstream) (t model : String)
    (thread : ThreadInfo) (m : GoError) (hthread : c.threadCache.lookup t = some thread)
    (hup : up { Model := model, Messages := thread.Messages } = .error m) :
    c.RunThread up t model = (c, .error ("failed to create chat completion: " ++ m)) := by
  simp only [Client.RunThread, hthread, hup]

/-- C15. For a request processed by `processChat` over the real client on a
cache satisfying the key invariant (every reachable cache does): when
`RunThread`, run after the user message was appended, returns an error `e`,
`processChat` returns an error and the conversation of the session is stored
afterwards with the messages it had before the request (none if it was new)
followed by exactly one user message carrying the request's text; the append is
not undone. -/
theorem processChat_failure_keeps_user_message (c : Client) (hinv : c.KeysMatch)
    (up : Upstream) (n₁ n₂ n₃ : Time) (cfg : Config) (req : ChatRequest) (e : GoError)
    (hfail : (((c.GetOrCreateThread n₁ n₂ req.SessionID req.AgentID req.UserID).1.AddMessageToThread
      req.SessionID req.Message).1.RunThread up req.SessionID cfg.DefaultModel).2 = .error e) :
    ((NewChatHandler (Client.toInterface up n₁ n₂ n₃) cfg).processChat c req).2 =
      .error ("failed to run thread: " ++ e) ∧
    ∃ th,
      ((NewChatHandler (Client.toInterface up n₁ n₂ n₃) cfg).processChat c req).1.threadCache.lookup
        req.SessionID = some th ∧
      th.Messages =
        c.messagesOf req.SessionID ++ [{ Role := "user", Content := req.Message }] ∧
      th.Messages.length = (c.messagesOf req.SessionID).length + 1 := by
  rw [real_processChat_run_error c hinv up n₁ n₂ n₃ cfg req e hfail]
  obtain ⟨thread, c₁, c₂, hget, _, _, hadd, hl⟩ :=
    real_get_then_add c hinv n₁ n₂ req.SessionID req.AgentID req.UserID req.Message
  refine ⟨rfl,
    { thread with
      Messages := c.messagesOf req.SessionID ++ [{ Role := "user", Content := req.Message }] },
    ?_, rfl, ?_⟩
  · rw [hget]
    simp only
    rw [hadd]
    exact hl
  · simp

/-- Instance of C15: a first request of session `session123` on the empty client
with a failing upstream leaves the conversation with the one user message. -/
theorem processChat_failure_keeps_user_message_witness :
    ∃ th,
      ((NewChatHandler (Client.toInterface upstreamFail ⟨1⟩ ⟨2⟩ ⟨3⟩)
          { DefaultModel := "gpt-4o" }).processChat NewClient sampleRequest).1.threadCache.lookup
        sampleRequest.SessionID = some th ∧
      th.Messages =
        NewClient.messagesOf sampleRequest.SessionID ++
          [{ Role := "user", Content := sampleRequest.Message }] ∧
      th.Messages.length = (NewClient.messagesOf sampleRequest.SessionID).length + 1 :=
  (processChat_failure_keeps_user_message NewClient KeysMatch_NewClient upstreamFail
    ⟨1⟩ ⟨2⟩ ⟨3⟩ { DefaultModel := "gpt-4o" } sampleRequest
    "failed to create chat completion: API error" rfl).2

/-! ## How an upstream failure reaches the response -/

/-- C13, as stated, fails.  With an upstream failing with the message
`API error`, `RunThread` returns a longer message, and the details of the 500
response to a valid request are longer still; neither is `API error`. -/
theorem upstream_error_verbatim_counterexample :
    (sampleClient.RunThread upstreamFail "s1" "gpt-4o").2 =
      .error "failed to create chat completion: API error" ∧
    ((sampleRealHandler upstreamFail).HandleChat NewClient ⟨10⟩ ⟨20⟩ (.ok sampleRequest)).2 =
      { code := 500
        body :=
          { Response := ""
            SessionID := "session123"
            Status := "error"
            Error := some
              { Code := "processing_error"
                Message := "Error processing chat request"
                Details :=
                  "failed to run thread: failed to create chat completion: API error" } } } ∧
    "failed to create chat completion: API error" ≠ "API error" ∧
    "failed to run thread: failed to create chat completion: API error" ≠ "API error" :=
  ⟨rfl, rfl, by decide, by decide⟩

/-- C13, amended.  For a valid request handled over the real client (on a cache
satisfying the key invariant) whose upstream call, on the stored messages
followed by the request's user message, fails with message `m`: `RunThread`
returns `m` behind the text `failed to create chat completion: `, `processChat`
returns that behind the text `failed to run thread: `, and the answer is 500 with
exactly this doubly prefixed message as `error.details`; `m` itself is carried
unaltered at the end. -/
theorem upstream_error_wrapped_at_each_level (c : Client) (hinv : c.KeysMatch)
    (up : Upstream) (n₁ n₂ n₃ startTime endTime : Time) (cfg : Config) (req : ChatRequest)
    (m : GoError)
    (hvalid : (NewChatHandler (Client.toInterface up n₁ n₂ n₃) cfg).validateRequest req = none)
    (hup : up { Model := cfg.DefaultModel
                Messages := c.messagesOf req.SessionID ++
                  [{ Role := "user", Content := req.Message }] } = .error m) :
    (((c.GetOrCreateThread n₁ n₂ req.SessionID req.AgentID req.UserID).1.AddMessageToThread
      req.SessionID req.Message).1.RunThread up req.SessionID cfg.DefaultModel).2 =
        .error ("failed to create chat completion: " ++ m) ∧
    ((NewChatHandler (Client.toInterface up n₁ n₂ n₃) cfg).processChat c req).2 =
      .error ("failed to run thread: " ++ ("failed to create chat completion: " ++ m)) ∧
    ((NewChatHandler (Client.toInterface up n₁ n₂ n₃) cfg).HandleChat c startTime endTime
        (.ok req)).2 =
      { code := 500
        body :=
          { Response := ""
            SessionID := req.SessionID
            Status := "error"
            Error := some
              { Code := "processing_error"
                Message := "Error processing chat request"
                Details :=
                  "failed to run thread: " ++ ("failed to create chat completion: " ++ m) } } } := by
  have hrun : (((c.GetOrCreateThread n₁ n₂ req.SessionID req.AgentID req.UserID).1.AddMessageToThread
      req.SessionID req.Message).1.RunThread up req.SessionID cfg.DefaultModel).2 =
        .error ("failed to create chat completion: " ++ m) := by
    obtain ⟨thread, c₁, c₂, hget, _, _, hadd, hl⟩ :=
      real_get_then_add c hinv n₁ n₂ req.SessionID req.AgentID req.UserID req.Message
    rw [hget]
    simp only
    rw [hadd]
    simp only
    rw [RunThread_upstream_error c₂ up req.SessionID cfg.DefaultModel _ m hl hup]
  have hproc := real_processChat_run_error c hinv up n₁ n₂ n₃ cfg req _ hrun
  refine ⟨hrun, by rw [hproc], ?_⟩
  simp only [ChatHandler.HandleChat, hvalid, hproc]

/-- Instance of amended C13: the first request of a session against a failing upstream. -/
theorem upstream_error_wrapped_at_each_level_witness :
    ((NewChatHandler (Client.toInterface upstreamFail ⟨1⟩ ⟨2⟩ ⟨3⟩)
        { DefaultModel := "gpt-4o" }).processChat NewClient sampleRequest).2 =
      .error ("failed to run thread: " ++ ("failed to create chat completion: " ++ "API error")) :=
  (upstream_error_wrapped_at_each_level NewClient KeysMatch_NewClient upstreamFail
    ⟨1⟩ ⟨2⟩ ⟨3⟩ ⟨10⟩ ⟨20⟩ { DefaultModel := "gpt-4o" } sampleRequest "API error"
    (by decide) rfl).2.1

/-! ## `TruncateString` -/

/-- A difference that lies in the non-negative range of `int` is not changed by wrapping. -/
theorem wrapInt64_of_fits (x : Int) (hlo : 0 ≤ x) (hhi : x < 2 ^ 63) : wrapInt64 x = x := by
  unfold wrapInt64
  have h : (x + 2 ^ 63) % 2 ^ 64 = x + 2 ^ 63 := by
    apply Int.emod_eq_of_lt
    · omega
    · omega
  rw [h]
  omega

/-- C14, at the failing input.  The string `hello` has 5 bytes, more than
`maxLen = 2`; the slice bound `maxLen - 3` is negative and `TruncateString`
panics, where its documentation promises the string truncated to the given
length. -/
theorem TruncateString_short_limit_panics :
    ¬ ((helloBytes.length : Int) ≤ 2) ∧ TruncateString helloBytes 2 = none := by
  decide

/-- The range in which `TruncateString` does what C14 says.  For a string `s`
(of at most `2^63 - 1` bytes, as every Go string is) and a limit `maxLen` with
`len(s) ≤ maxLen` or `maxLen ≥ 3`,
`TruncateString` returns a string: `s` itself when `len(s) ≤ maxLen`, and
otherwise the first `maxLen - 3` bytes of `s` followed by `...`, which has
exactly `maxLen` bytes. -/
theorem TruncateString_within_limit (s : GoString) (maxLen : Int)
    (hfit : (s.length : Int) ≤ 2 ^ 63 - 1)
    (hlimit : (s.length : Int) ≤ maxLen ∨ 3 ≤ maxLen) :
    ∃ r, TruncateString s maxLen = some r ∧
      ((s.length : Int) ≤ maxLen → r = s) ∧
      (maxLen < (s.length : Int) →
        r = s.take (maxLen - 3).toNat ++ ellipsis ∧ (r.length : Int) = maxLen) := by
  by_cases hle : (s.length : Int) ≤ maxLen
  · refine ⟨s, ?_, fun _ => rfl, fun hlt => absurd hle (not_le.2 hlt)⟩
    simp only [TruncateString, hle, if_true]
  · have h3 : 3 ≤ maxLen := by
      rcases hlimit with h | h
      · exact absurd h hle
      · exact h
    have hlt : maxLen < (s.length : Int) := not_le.1 hle
    have hwrap : wrapInt64 (maxLen - 3) = maxLen - 3 :=
      wrapInt64_of_fits _ (by omega) (by omega)
    have hnopanic : ¬ (maxLen - 3 < 0 ∨ (s.length : Int) < maxLen - 3) := by omega
    refine ⟨s.take (maxLen - 3).toNat ++ ellipsis, ?_, fun h => absurd h hle, fun _ => ⟨rfl, ?_⟩⟩
    · simp only [TruncateString, hle, if_false, hwrap, hnopanic]
    · have hn : (maxLen - 3).toNat ≤ s.length := by omega
      rw [List.length_append, List.length_take, min_eq_left hn]
      simp only [ellipsis, List.length_cons, List.length_nil]
      omega

/-- Instance of `TruncateString_within_limit`: `hello` truncated to 4 bytes is `h...`. -/
theorem TruncateString_within_limit_witness :
    ∃ r, TruncateString helloBytes 4 = some r ∧
      ((helloBytes.length : Int) ≤ 4 → r = helloBytes) ∧
      ((4 : Int) < (helloBytes.length : Int) →
        r = helloBytes.take ((4 : Int) - 3).toNat ++ ellipsis ∧ (r.length : Int) = 4) :=
  TruncateString_within_limit helloBytes 4 (by decide) (Or.inr (by decide))

end ChatGPTService
